import Mathlib

/-!
Verification of the HTTP_Client load-generation engine.

Shallow embedding of the core of the repository:
  - `src/internal/stats/collector.go` — the concurrent statistics collector
    (counters, bounded latency-sample buffer, per-second throughput buckets,
    percentile computation).
  - `src/internal/engine/worker.go` — the pipeline-slot request loop.
  - `src/pkg/netutil/checks.go` — the DNS preflight.
  - the orchestrator `Run` (modelled from the spec where its source file is
    not available; see the doc comment on `orchestratorRun`).

Go `uint64` counters are modelled as `Nat` reduced modulo `2 ^ 64` on every
atomic add.  Go `float64` quantities are modelled as exact rationals `ℚ`;
the only irrational operation, `math.Sqrt`, is threaded through as an
abstract function `sqrtO : ℚ → ℚ` so no theorem depends on its value.
`time.Duration` values (int64 nanoseconds, non-negative in this program)
are modelled as `Nat`.
-/

namespace HTTPClientProof

/-- Modulus of Go's `uint64` arithmetic. -/
def UINT64_MOD : Nat := 2 ^ 64

/-- Go `uint64` addition: wraps modulo `2 ^ 64` (`atomic.AddUint64`). -/
def addU64 (a b : Nat) : Nat := (a + b) % UINT64_MOD

/-- Go `uint64` subtraction, wrapping modulo `2 ^ 64`. -/
def subU64 (a b : Nat) : Nat := (a % UINT64_MOD + (UINT64_MOD - b % UINT64_MOD)) % UINT64_MOD

/-- `const maxLatencySamples = 50000` (collector.go line 11). -/
def maxLatencySamples : Nat := 50000

/-- `const maxBucketSamples = 600` (collector.go line 12). -/
def maxBucketSamples : Nat := 600

/-- The mutable state of `stats.Collector` (collector.go lines 51-68).
`startTime` and `lastBucketTime` are wall-clock values; they are not stored
here — the elapsed durations derived from them are passed to `snapshot` as
explicit arguments (`elapsedNs`, `nowSubLastNs`). -/
structure Collector where
  totalRequests : Nat
  successes : Nat
  errors : Nat
  totalBytesSent : Nat
  totalBytesRecv : Nat
  latencySamples : List Nat
  lastBucketReqs : Nat
  lastBucketSent : Nat
  lastBucketRecv : Nat
  rpsBuckets : List ℚ
  bytesPerSBuckets : List ℚ
  deriving Repr, DecidableEq

/-- `stats.NewCollector` (collector.go lines 71-79): all counters zero,
all buffers empty. -/
def newCollector : Collector :=
  { totalRequests := 0, successes := 0, errors := 0
    totalBytesSent := 0, totalBytesRecv := 0
    latencySamples := []
    lastBucketReqs := 0, lastBucketSent := 0, lastBucketRecv := 0
    rpsBuckets := [], bytesPerSBuckets := [] }

/-- `Collector.Record` (collector.go lines 82-97), as one sequential state
transform: add 1 to the total-request counter, add the byte counts, add 1 to
exactly one of the success/error counters, then append the latency sample to
the bounded buffer unless it is already full. -/
def Collector.record (c : Collector) (latency : Nat) (success : Bool)
    (bytesSent bytesRecv : Nat) : Collector :=
  let c1 := { c with
    totalRequests := addU64 c.totalRequests 1
    totalBytesSent := addU64 c.totalBytesSent bytesSent
    totalBytesRecv := addU64 c.totalBytesRecv bytesRecv }
  let c2 :=
    if success then { c1 with successes := addU64 c1.successes 1 }
    else { c1 with errors := addU64 c1.errors 1 }
  if c2.latencySamples.length < maxLatencySamples then
    { c2 with latencySamples := c2.latencySamples ++ [latency] }
  else c2

/-- The primitive memory operations performed by `Collector.Record`:
each `atomic.AddUint64` call is one indivisible op, and the mutex-guarded
append of a latency sample is one indivisible op.  A concurrent execution of
many `Record` calls is an interleaving of their primitive ops. -/
inductive AtomicOp
  | addTotal (k : Nat)
  | addSent (k : Nat)
  | addRecvd (k : Nat)
  | addSucc
  | addErr
  | appendLatency (d : Nat)
  deriving Repr, DecidableEq

/-- Effect of one primitive operation on the collector state. -/
def applyOp (c : Collector) : AtomicOp → Collector
  | .addTotal k => { c with totalRequests := addU64 c.totalRequests k }
  | .addSent k => { c with totalBytesSent := addU64 c.totalBytesSent k }
  | .addRecvd k => { c with totalBytesRecv := addU64 c.totalBytesRecv k }
  | .addSucc => { c with successes := addU64 c.successes 1 }
  | .addErr => { c with errors := addU64 c.errors 1 }
  | .appendLatency d =>
      if c.latencySamples.length < maxLatencySamples then
        { c with latencySamples := c.latencySamples ++ [d] }
      else c

/-- Execute a sequence of primitive operations in order. -/
def execOps (l : List AtomicOp) (c : Collector) : Collector := l.foldl applyOp c

/-- The primitive operations of one `Collector.Record(latency, success,
bytesSent, bytesRecv)` call, in program order (collector.go lines 82-97). -/
def recordOps (latency : Nat) (success : Bool) (bytesSent bytesRecv : Nat) :
    List AtomicOp :=
  [.addTotal 1, .addSent bytesSent, .addRecvd bytesRecv,
   if success then .addSucc else .addErr, .appendLatency latency]

/-- Contribution of one primitive op to the total-request counter. -/
def opTotalDelta : AtomicOp → Nat
  | .addTotal k => k
  | _ => 0

/-- Contribution of one primitive op to the bytes-sent counter. -/
def opSentDelta : AtomicOp → Nat
  | .addSent k => k
  | _ => 0

/-- Contribution of one primitive op to the bytes-received counter. -/
def opRecvdDelta : AtomicOp → Nat
  | .addRecvd k => k
  | _ => 0

/-- Contribution of one primitive op to the success counter. -/
def opSuccDelta : AtomicOp → Nat
  | .addSucc => 1
  | _ => 0

/-- Contribution of one primitive op to the error counter. -/
def opErrDelta : AtomicOp → Nat
  | .addErr => 1
  | _ => 0

/-- The fields of `stats.Snapshot` (collector.go lines 15-48).  Counter
totals are `uint64` (here `Nat`), latency statistics are `time.Duration`
nanoseconds (here `Nat`), throughput statistics are `float64` (here `ℚ`). -/
structure SnapshotV where
  TotalRequests : Nat
  Successes : Nat
  Errors : Nat
  TotalBytesSent : Nat
  TotalBytesRecv : Nat
  DurationNs : Nat
  RequestsPerSAvg : ℚ
  BytesPerSAvg : ℚ
  LatencyP25 : Nat
  LatencyP50 : Nat
  LatencyP975 : Nat
  LatencyP99 : Nat
  LatencyAvg : Nat
  LatencyStdev : Nat
  LatencyMax : Nat
  RPSP01 : ℚ
  RPSP025 : ℚ
  RPSP50 : ℚ
  RPSP975 : ℚ
  RPSStdev : ℚ
  RPSMin : ℚ
  BytesPerSP01 : ℚ
  BytesPerSP025 : ℚ
  BytesPerSP50 : ℚ
  BytesPerSP975 : ℚ
  BytesPerSStdev : ℚ
  BytesPerSMin : ℚ
  deriving Repr, DecidableEq

/-- Go's `math.Round`: round half away from zero.  Only ever applied to
non-negative values in this program, where it is round half up. -/
def goRound (x : ℚ) : Int :=
  if 0 ≤ x then ⌊x + 1 / 2⌋ else -⌊-x + 1 / 2⌋

/-- `percentileDuration` (collector.go lines 99-111): index
`int(math.Round(p / 100 * float64(len(s)-1)))`, clamped below by `0` and
above by `len(s) - 1`, then direct indexing into `s`. -/
def percentileDuration (s : List Nat) (p : ℚ) : Nat :=
  if s.length = 0 then 0
  else
    let idx0 : Int := goRound (p / 100 * ((s.length : ℚ) - 1))
    let idx1 : Int := if idx0 < 0 then 0 else idx0
    let idx2 : Int := if (s.length : Int) ≤ idx1 then (s.length : Int) - 1 else idx1
    s.getD idx2.toNat 0

/-- `percentileFloat` (collector.go lines 113-125): the same nearest-rank
selection over `float64` samples. -/
def percentileFloat (s : List ℚ) (p : ℚ) : ℚ :=
  if s.length = 0 then 0
  else
    let idx0 : Int := goRound (p / 100 * ((s.length : ℚ) - 1))
    let idx1 : Int := if idx0 < 0 then 0 else idx0
    let idx2 : Int := if (s.length : Int) ≤ idx1 then (s.length : Int) - 1 else idx1
    s.getD idx2.toNat 0

/-- `avgStdevDuration` (collector.go lines 127-143).  The average is the
truncating int64 division `sum / len(s)`.  The standard deviation is
`time.Duration(int64(math.Sqrt(varSum / float64(len(s)))))`: a truncation to
integer of the real square root, which equals `Nat.sqrt` of the floor of the
radicand (float rounding at the last-bit scale is abstracted away). -/
def avgStdevDuration (s : List Nat) : Nat × Nat :=
  if s.length = 0 then (0, 0)
  else
    let avg := s.sum / s.length
    let varSum : ℚ := (s.map (fun d => ((d : ℚ) - (avg : ℚ)) ^ 2)).sum
    let stdev := Nat.sqrt (⌊varSum / (s.length : ℚ)⌋).toNat
    (avg, stdev)

/-- `avgStdevMinFloat` (collector.go lines 145-165): arithmetic mean,
population standard deviation (`sqrtO` stands for `math.Sqrt`), and minimum
of a `float64` slice; all zero on an empty slice. -/
def avgStdevMinFloat (sqrtO : ℚ → ℚ) (s : List ℚ) : ℚ × ℚ × ℚ :=
  match s with
  | [] => (0, 0, 0)
  | v0 :: _ =>
    let sum := s.sum
    let minv := s.foldl (fun m v => if v < m then v else m) v0
    let avg := sum / (s.length : ℚ)
    let varSum := (s.map (fun v => (v - avg) ^ 2)).sum
    (avg, sqrtO (varSum / (s.length : ℚ)), minv)

/-- `elapsed.Seconds()` followed by the clamp
`if elapsedSec < 0.001 { elapsedSec = 0.001 }` (collector.go lines 169-173). -/
def elapsedSecondsQ (elapsedNs : Nat) : ℚ :=
  let e : ℚ := (elapsedNs : ℚ) / 1000000000
  if e < 1 / 1000 then 1 / 1000 else e

/-- The bucket-maintenance step of `Collector.Snapshot` (collector.go lines
179-200): if at least one second has passed since the last flush and new
requests have arrived, append one requests-per-second and one bytes-per-second
bucket over the actual elapsed interval, evicting the oldest pair when the
series exceeds `maxBucketSamples`, and reset the last-bucket marks.
`nowSubLastNs` is `now.Sub(c.lastBucketTime)` in nanoseconds. -/
def flushBuckets (c : Collector) (nowSubLastNs : Nat) : Collector :=
  if 1000000000 ≤ nowSubLastNs ∧ c.lastBucketReqs < c.totalRequests then
    let secs : ℚ := (nowSubLastNs : ℚ) / 1000000000
    let c1 :=
      if 0 < secs then
        let reqDelta := subU64 c.totalRequests c.lastBucketReqs
        let sentDelta := subU64 c.totalBytesSent c.lastBucketSent
        let recvDelta := subU64 c.totalBytesRecv c.lastBucketRecv
        let rps1 := c.rpsBuckets ++ [(reqDelta : ℚ) / secs]
        let bys1 := c.bytesPerSBuckets ++ [((sentDelta + recvDelta : Nat) : ℚ) / secs]
        if maxBucketSamples < rps1.length then
          { c with rpsBuckets := rps1.drop 1, bytesPerSBuckets := bys1.drop 1 }
        else
          { c with rpsBuckets := rps1, bytesPerSBuckets := bys1 }
      else c
    { c1 with lastBucketReqs := c.totalRequests
              lastBucketSent := c.totalBytesSent
              lastBucketRecv := c.totalBytesRecv }
  else c

/-- `Collector.Snapshot` (collector.go lines 168-244).  `elapsedNs` is
`time.Since(c.startTime)`, `nowSubLastNs` is `now.Sub(c.lastBucketTime)`,
and `sqrtO` abstracts `math.Sqrt`.  After bucket maintenance, the latency
samples and both bucket series are copied out; percentile statistics are
computed on ascending-sorted copies, and every statistics block is left at
zero when its sample set is empty. -/
def Collector.snapshot (c : Collector) (elapsedNs nowSubLastNs : Nat)
    (sqrtO : ℚ → ℚ) : SnapshotV :=
  let elapsedSec := elapsedSecondsQ elapsedNs
  let c2 := flushBuckets c nowSubLastNs
  let latencySamples := c2.latencySamples
  let rpsBuckets := c2.rpsBuckets
  let bytesBuckets := c2.bytesPerSBuckets
  let snap0 : SnapshotV :=
    { TotalRequests := c.totalRequests
      Successes := c.successes
      Errors := c.errors
      TotalBytesSent := c.totalBytesSent
      TotalBytesRecv := c.totalBytesRecv
      DurationNs := elapsedNs
      RequestsPerSAvg := (c.totalRequests : ℚ) / elapsedSec
      BytesPerSAvg := ((addU64 c.totalBytesSent c.totalBytesRecv : Nat) : ℚ) / elapsedSec
      LatencyP25 := 0, LatencyP50 := 0, LatencyP975 := 0, LatencyP99 := 0
      LatencyAvg := 0, LatencyStdev := 0, LatencyMax := 0
      RPSP01 := 0, RPSP025 := 0, RPSP50 := 0, RPSP975 := 0
      RPSStdev := 0, RPSMin := 0
      BytesPerSP01 := 0, BytesPerSP025 := 0, BytesPerSP50 := 0
      BytesPerSP975 := 0, BytesPerSStdev := 0, BytesPerSMin := 0 }
  let snap1 :=
    if latencySamples.length = 0 then snap0
    else
      let sorted := latencySamples.insertionSort (· ≤ ·)
      let as := avgStdevDuration sorted
      { snap0 with
        LatencyP25 := percentileDuration sorted (5 / 2)
        LatencyP50 := percentileDuration sorted 50
        LatencyP975 := percentileDuration sorted (195 / 2)
        LatencyP99 := percentileDuration sorted 99
        LatencyAvg := as.1
        LatencyStdev := as.2
        LatencyMax := sorted.getD (sorted.length - 1) 0 }
  let snap2 :=
    if rpsBuckets.length = 0 then snap1
    else
      let sorted := rpsBuckets.insertionSort (· ≤ ·)
      let asm := avgStdevMinFloat sqrtO sorted
      { snap1 with
        RPSP01 := percentileFloat sorted 1
        RPSP025 := percentileFloat sorted (5 / 2)
        RPSP50 := percentileFloat sorted 50
        RPSP975 := percentileFloat sorted (195 / 2)
        RPSStdev := asm.2.1
        RPSMin := asm.2.2 }
  let snap3 :=
    if bytesBuckets.length = 0 then snap2
    else
      let sorted := bytesBuckets.insertionSort (· ≤ ·)
      let asm := avgStdevMinFloat sqrtO sorted
      { snap2 with
        BytesPerSP01 := percentileFloat sorted 1
        BytesPerSP025 := percentileFloat sorted (5 / 2)
        BytesPerSP50 := percentileFloat sorted 50
        BytesPerSP975 := percentileFloat sorted (195 / 2)
        BytesPerSStdev := asm.2.1
        BytesPerSMin := asm.2.2 }
  snap3

/-- `engine.Config` (config.go): the runtime configuration of a run.
The request body is a byte sequence (`[]byte`), modelled as `List Nat`. -/
structure Config where
  Method : String
  URL : String
  Body : List Nat
  Connections : Int
  DurationNs : Nat
  Workers : Int
  Pipeline : Int
  deriving Repr, DecidableEq

/-- An HTTP response as observed by the slot: its status code and the number
of body bytes drained by `io.Copy(io.Discard, resp.Body)`. -/
structure HTTPResponse where
  statusCode : Int
  bodyBytes : Nat
  deriving Repr, DecidableEq

/-- What one loop iteration of a pipeline slot observes from its
environment: the two stop signals as sampled by the `select` at the top of
the iteration, and — if a request is issued — the outcome of `client.Do`
(whether a transport error occurred, the response if any) and the measured
wall-clock latency. -/
structure IterObs where
  ctxDone : Bool
  durDone : Bool
  transportErr : Bool
  resp : Option HTTPResponse
  latencyNs : Nat
  deriving Repr, DecidableEq

/-- The outcome classification of worker.go line 96:
`success := err == nil && resp != nil && resp.StatusCode >= 200 &&
resp.StatusCode < 500`. -/
def isSuccess : Bool → Option HTTPResponse → Bool
  | false, some r => decide (200 ≤ r.statusCode) && decide (r.statusCode < 500)
  | _, _ => false

/-- Bytes drained from the response body (worker.go lines 89-94):
`io.Copy(io.Discard, resp.Body)` when a response with a body is present,
zero otherwise. -/
def bytesRecvOf : Option HTTPResponse → Nat
  | some r => r.bodyBytes
  | none => 0

/-- An `*http.Request` as relevant here: its body reader (present only when
a body was supplied; `some bs` holds the not-yet-consumed bytes) and its
`ContentLength`. -/
structure GoRequest where
  method : String
  url : String
  readerBytes : Option (List Nat)
  contentLength : Int
  deriving Repr, DecidableEq

/-- The request built by `http.NewRequestWithContext(ctx, cfg.Method,
cfg.URL, bodyReader)` followed by `req.ContentLength = int64(len(cfg.Body))`
when the body is non-empty (worker.go lines 54-64 and 73-81). -/
def buildRequest (cfg : Config) : GoRequest :=
  { method := cfg.Method
    url := cfg.URL
    readerBytes := if cfg.Body.isEmpty then none else some cfg.Body
    contentLength := if cfg.Body.isEmpty then 0 else (cfg.Body.length : Int) }

/-- Transmitting a request: the wire payload is whatever the single-use body
reader still holds; transmission consumes the reader. -/
def transmit (r : GoRequest) : GoRequest × List Nat :=
  match r.readerBytes with
  | none => (r, [])
  | some bs => ({ r with readerBytes := some [] }, bs)

/-- One `collector.Record` call as issued by a pipeline slot. -/
structure RecordCall where
  latencyNs : Nat
  success : Bool
  bytesSent : Nat
  bytesRecvd : Nat
  deriving Repr, DecidableEq

/-- What a pipeline slot did over its lifetime: the `Record` calls it made
(in order), the payloads observed on the wire by the remote endpoint (one
per issued request), the requests as they were at the moment of
transmission, and how many requests were constructed inside the loop
(beyond the initial one built before the loop). -/
structure SlotOut where
  records : List RecordCall
  payloads : List (List Nat)
  issued : List GoRequest
  loopBuilds : Nat
  deriving Repr, DecidableEq

/-- The request loop of `runPipelineSlot` (worker.go lines 66-99), one
recursion step per iteration, driven by the observation trace `obs`.
`buildFails` is whether `http.NewRequestWithContext` rejects
`cfg.Method` / `cfg.URL` — a property of the configuration alone, so one
flag covers the initial build and every in-loop rebuild.  Each iteration:
stop if the cancellation context is done; else stop if the duration-expired
channel is closed; else issue one request — with a non-empty body a fresh
request is built over the same immutable body bytes (the shared `req` is
left untouched), with an empty body the pre-built `req` is reused — then
record the outcome and loop.  The trace being finite simply cuts the loop
off after finitely many iterations. -/
def slotLoop (cfg : Config) (buildFails : Bool) :
    GoRequest → List IterObs → SlotOut
  | _, [] => { records := [], payloads := [], issued := [], loopBuilds := 0 }
  | req, o :: rest =>
    if o.ctxDone then { records := [], payloads := [], issued := [], loopBuilds := 0 }
    else if o.durDone then { records := [], payloads := [], issued := [], loopBuilds := 0 }
    else if ¬cfg.Body.isEmpty ∧ buildFails then
      { records := [], payloads := [], issued := [], loopBuilds := 0 }
    else
      let r := if cfg.Body.isEmpty then req else buildRequest cfg
      let tp := transmit r
      let next := if cfg.Body.isEmpty then tp.1 else req
      let call : RecordCall :=
        { latencyNs := o.latencyNs
          success := isSuccess o.transportErr o.resp
          bytesSent := cfg.Body.length
          bytesRecvd := bytesRecvOf o.resp }
      let out := slotLoop cfg buildFails next rest
      { records := call :: out.records
        payloads := tp.2 :: out.payloads
        issued := r :: out.issued
        loopBuilds := (if cfg.Body.isEmpty then 0 else 1) + out.loopBuilds }

/-- `runPipelineSlot` (worker.go lines 47-100): build the initial request —
returning immediately, having recorded nothing, if construction fails — then
run the request loop. -/
def runPipelineSlot (cfg : Config) (buildFails : Bool) (obs : List IterObs) :
    SlotOut :=
  if buildFails then { records := [], payloads := [], issued := [], loopBuilds := 0 }
  else slotLoop cfg buildFails (buildRequest cfg) obs

/-- Result of `url.Parse` / `parsed.Hostname()` on the configured URL
(standard-library externals, abstracted as an oracle): either the URL fails
to parse, or it parses with the given hostname. -/
inductive ParseResult
  | fail
  | ok (hostname : String)
  deriving Repr, DecidableEq

/-- What the DNS preflight did and returned. -/
structure PreflightOut where
  err : Option String
  lookupAttempted : Bool
  deriving Repr, DecidableEq

/-- `netutil.PreflightDNS` (checks.go lines 11-26): reject an unparsable
URL, reject an empty hostname, then attempt the DNS lookup (`lookupOk`
abstracts `net.LookupHost`) and reject on failure. -/
def preflightDNS (parse : ParseResult) (lookupOk : String → Bool) :
    PreflightOut :=
  match parse with
  | .fail => { err := some "invalid url", lookupAttempted := false }
  | .ok host =>
    if host = "" then { err := some "missing host in url", lookupAttempted := false }
    else if lookupOk host then { err := none, lookupAttempted := true }
    else { err := some "dns resolution failed", lookupAttempted := true }

/-- The observable lifecycle of one `Orchestrator.Run` call: the returned
error and which resources were brought into existence. -/
structure RunTrace where
  err : Option String
  dnsLookupAttempted : Bool
  collectorCreated : Bool
  cancelSignalCreated : Bool
  durationSignalCreated : Bool
  workersSpawned : Bool
  deriving Repr, DecidableEq

/-- Modelled from the spec: the orchestrator source file holding
`Orchestrator.Run` is not among the provided sources (only its
documentation, an earlier revision, and its callee `worker.go` are).  Per
spec §4.1: `Run` rejects an empty URL immediately with no side effects; it
then runs the DNS preflight and aborts before creating any signal, the
collector, or any worker when the preflight fails; otherwise it creates the
cancellation signal, the duration-expired signal, the collector, the client
and the workers, waits for every worker to finish, triggers cancellation,
waits for the final report, and returns nil — individual request outcomes
never surface as an error. -/
def orchestratorRun (cfg : Config) (parse : ParseResult)
    (lookupOk : String → Bool) : RunTrace :=
  if cfg.URL = "" then
    { err := some "url is required", dnsLookupAttempted := false
      collectorCreated := false, cancelSignalCreated := false
      durationSignalCreated := false, workersSpawned := false }
  else
    let pf := preflightDNS parse lookupOk
    match pf.err with
    | some e =>
      { err := some e, dnsLookupAttempted := pf.lookupAttempted
        collectorCreated := false, cancelSignalCreated := false
        durationSignalCreated := false, workersSpawned := false }
    | none =>
      { err := none, dnsLookupAttempted := pf.lookupAttempted
        collectorCreated := true, cancelSignalCreated := true
        durationSignalCreated := true, workersSpawned := true }

/-- A sequential run of `Collector.Record` calls. -/
def recordList (c : Collector) (calls : List RecordCall) : Collector :=
  calls.foldl (fun acc r => acc.record r.latencyNs r.success r.bytesSent r.bytesRecvd) c

/-- An iteration proceeds to issue a request exactly when neither stop
signal was observed. -/
def stopFree (o : IterObs) : Bool := !o.ctxDone && !o.durDone

/-- The `Record` call a slot makes for the request issued under observation
`o` (worker.go lines 83-97): measured latency, the outcome classification,
`uint64(len(cfg.Body))` bytes sent, and the drained response bytes. -/
def obsRecord (cfg : Config) (o : IterObs) : RecordCall :=
  { latencyNs := o.latencyNs
    success := isSuccess o.transportErr o.resp
    bytesSent := cfg.Body.length
    bytesRecvd := bytesRecvOf o.resp }

/-- The spec's percentile rule, stated from its words for comparison with
the implementation: "sort ascending; for each target percentile p, select
the sample at index `round(p/100 * (n-1))`, clamped to `[0, n-1]`" — here
applied to an already-sorted sample list. -/
def specNearestRank (sorted : List Nat) (p : ℚ) : Nat :=
  let n : Int := (sorted.length : Int)
  let i : Int := goRound (p / 100 * ((sorted.length : ℚ) - 1))
  sorted.getD (max 0 (min i (n - 1))).toNat 0

/-- Concrete interleaving used to witness the concurrent-record theorem:
three `Record(1ms, true, 1, 1)` calls back to back. -/
def witnessOps : List AtomicOp :=
  (List.replicate 3 (recordOps 1000000 true 1 1)).flatten

/-- A collector whose latency-sample buffer is exactly full. -/
def fullCollector : Collector :=
  { newCollector with latencySamples := List.replicate maxLatencySamples 0 }

/-- A concrete configuration with a non-empty body, used in witnesses. -/
def cfgBody : Config :=
  { Method := "POST", URL := "http://localhost:8080/x", Body := [1, 2, 3]
    Connections := 10, DurationNs := 50000000, Workers := 2, Pipeline := 2 }

/-- A concrete configuration with an empty body, used in witnesses. -/
def cfgNoBody : Config :=
  { Method := "GET", URL := "http://localhost:8080/x", Body := []
    Connections := 10, DurationNs := 50000000, Workers := 2, Pipeline := 2 }

/-- An observation under which a request is issued and answered 404 with a
5-byte body. -/
def obs404 : IterObs :=
  { ctxDone := false, durDone := false, transportErr := false
    resp := some { statusCode := 404, bodyBytes := 5 }, latencyNs := 2000000 }

/-- An observation made after the duration timer fired (duration-expired
signal closed, cancellation not triggered). -/
def obsExpired : IterObs :=
  { ctxDone := false, durDone := true, transportErr := false
    resp := none, latencyNs := 0 }

/-- A collector holding the five spec-example latency samples, out of
order. -/
def fiveSampleCollector : Collector :=
  { newCollector with
    latencySamples := [30000000, 10000000, 50000000, 20000000, 40000000] }

/-! ### Helper lemmas -/

theorem uint64_mod_pos : 0 < UINT64_MOD := by
  norm_num [UINT64_MOD]

theorem addU64_lt (a b : Nat) : addU64 a b < UINT64_MOD :=
  Nat.mod_lt _ uint64_mod_pos

theorem applyOp_totalRequests (c : Collector) (op : AtomicOp)
    (h : c.totalRequests < UINT64_MOD) :
    (applyOp c op).totalRequests = addU64 c.totalRequests (opTotalDelta op) := by
  cases op <;>
    simp [applyOp, opTotalDelta, addU64, Nat.mod_eq_of_lt h, apply_ite
          (f := Collector.totalRequests)]

theorem applyOp_totalBytesSent (c : Collector) (op : AtomicOp)
    (h : c.totalBytesSent < UINT64_MOD) :
    (applyOp c op).totalBytesSent = addU64 c.totalBytesSent (opSentDelta op) := by
  cases op <;>
    simp [applyOp, opSentDelta, addU64, Nat.mod_eq_of_lt h, apply_ite
          (f := Collector.totalBytesSent)]

theorem applyOp_totalBytesRecv (c : Collector) (op : AtomicOp)
    (h : c.totalBytesRecv < UINT64_MOD) :
    (applyOp c op).totalBytesRecv = addU64 c.totalBytesRecv (opRecvdDelta op) := by
  cases op <;>
    simp [applyOp, opRecvdDelta, addU64, Nat.mod_eq_of_lt h, apply_ite
          (f := Collector.totalBytesRecv)]

theorem applyOp_successes (c : Collector) (op : AtomicOp)
    (h : c.successes < UINT64_MOD) :
    (applyOp c op).successes = addU64 c.successes (opSuccDelta op) := by
  cases op <;>
    simp [applyOp, opSuccDelta, addU64, Nat.mod_eq_of_lt h, apply_ite
          (f := Collector.successes)]

theorem applyOp_errors (c : Collector) (op : AtomicOp)
    (h : c.errors < UINT64_MOD) :
    (applyOp c op).errors = addU64 c.errors (opErrDelta op) := by
  cases op <;>
    simp [applyOp, opErrDelta, addU64, Nat.mod_eq_of_lt h, apply_ite
          (f := Collector.errors)]

theorem execOps_counter (g : Collector → Nat) (f : AtomicOp → Nat)
    (hstep : ∀ c op, g c < UINT64_MOD →
      g (applyOp c op) = addU64 (g c) (f op)) :
    ∀ (l : List AtomicOp) (c : Collector), g c < UINT64_MOD →
      g (execOps l c) = (g c + (l.map f).sum) % UINT64_MOD := by
  intro l
  induction l with
  | nil =>
    intro c h
    simpa [execOps] using (Nat.mod_eq_of_lt h).symm
  | cons op rest ih =>
    intro c h
    have hrest : g (execOps rest (applyOp c op))
        = (g (applyOp c op) + (rest.map f).sum) % UINT64_MOD := by
      refine ih _ ?_
      rw [hstep c op h]
      exact addU64_lt _ _
    calc g (execOps (op :: rest) c)
        = g (execOps rest (applyOp c op)) := rfl
      _ = (g (applyOp c op) + (rest.map f).sum) % UINT64_MOD := hrest
      _ = (addU64 (g c) (f op) + (rest.map f).sum) % UINT64_MOD := by
            rw [hstep c op h]
      _ = (g c + ((op :: rest).map f).sum) % UINT64_MOD := by
            simp [addU64, Nat.mod_add_mod, Nat.add_assoc]

theorem sum_map_flatten_replicate (N : Nat) (ops : List AtomicOp)
    (f : AtomicOp → Nat) :
    (((List.replicate N ops).flatten).map f).sum = N * ((ops.map f).sum) := by
  induction N with
  | zero => simp
  | succ n ih =>
    simp [List.replicate_succ, ih, Nat.succ_mul, Nat.add_comm]

theorem snapshot_TotalRequests (c : Collector) (e n : Nat) (q : ℚ → ℚ) :
    (c.snapshot e n q).TotalRequests = c.totalRequests := by
  simp only [Collector.snapshot]
  split_ifs <;> rfl

theorem snapshot_Successes (c : Collector) (e n : Nat) (q : ℚ → ℚ) :
    (c.snapshot e n q).Successes = c.successes := by
  simp only [Collector.snapshot]
  split_ifs <;> rfl

theorem snapshot_Errors (c : Collector) (e n : Nat) (q : ℚ → ℚ) :
    (c.snapshot e n q).Errors = c.errors := by
  simp only [Collector.snapshot]
  split_ifs <;> rfl

theorem snapshot_TotalBytesSent (c : Collector) (e n : Nat) (q : ℚ → ℚ) :
    (c.snapshot e n q).TotalBytesSent = c.totalBytesSent := by
  simp only [Collector.snapshot]
  split_ifs <;> rfl

theorem snapshot_TotalBytesRecv (c : Collector) (e n : Nat) (q : ℚ → ℚ) :
    (c.snapshot e n q).TotalBytesRecv = c.totalBytesRecv := by
  simp only [Collector.snapshot]
  split_ifs <;> rfl

theorem flushBuckets_latencySamples (c : Collector) (n : Nat) :
    (flushBuckets c n).latencySamples = c.latencySamples := by
  simp only [flushBuckets]
  split_ifs <;> rfl

theorem snapshot_LatencyP50 (c : Collector) (e n : Nat) (q : ℚ → ℚ)
    (h : c.latencySamples.length ≠ 0) :
    (c.snapshot e n q).LatencyP50
      = percentileDuration (c.latencySamples.insertionSort (· ≤ ·)) 50 := by
  simp only [Collector.snapshot, flushBuckets_latencySamples]
  split_ifs <;> rfl

theorem snapshot_LatencyMax (c : Collector) (e n : Nat) (q : ℚ → ℚ)
    (h : c.latencySamples.length ≠ 0) :
    (c.snapshot e n q).LatencyMax
      = (c.latencySamples.insertionSort (· ≤ ·)).getD
          ((c.latencySamples.insertionSort (· ≤ ·)).length - 1) 0 := by
  simp only [Collector.snapshot, flushBuckets_latencySamples]
  split_ifs <;> rfl

theorem slotLoop_records (cfg : Config) :
    ∀ (obs : List IterObs) (req : GoRequest),
      (slotLoop cfg false req obs).records
        = (obs.takeWhile stopFree).map (obsRecord cfg) := by
  intro obs
  induction obs with
  | nil => intro req; rfl
  | cons o rest ih =>
    intro req
    cases hc : o.ctxDone with
    | true => simp [slotLoop, hc, List.takeWhile_cons, stopFree]
    | false =>
      cases hd : o.durDone with
      | true => simp [slotLoop, hc, hd, List.takeWhile_cons, stopFree]
      | false =>
        simp [slotLoop, hc, hd, List.takeWhile_cons, stopFree, obsRecord, ih]

theorem takeWhile_all_append {α : Type} (p : α → Bool) :
    ∀ (pre : List α), (∀ x ∈ pre, p x = true) →
      ∀ (o : α), p o = false → ∀ (rest : List α),
        ((pre ++ o :: rest).takeWhile p) = pre := by
  intro pre
  induction pre with
  | nil =>
    intro _ o ho rest
    simp [List.takeWhile_cons, ho]
  | cons a l ih =>
    intro h o ho rest
    have ha : p a = true := h a (by simp)
    simp [List.takeWhile_cons, ha, ho,
      ih (fun x hx => h x (by simp [hx])) o ho rest]

theorem slotLoop_body_payloads (cfg : Config) (hb : ¬cfg.Body.isEmpty) :
    ∀ (obs : List IterObs) (req : GoRequest),
      (slotLoop cfg false req obs).payloads
        = List.replicate (obs.takeWhile stopFree).length cfg.Body
    ∧ (slotLoop cfg false req obs).loopBuilds
        = (obs.takeWhile stopFree).length
    ∧ (slotLoop cfg false req obs).issued
        = List.replicate (obs.takeWhile stopFree).length (buildRequest cfg) := by
  intro obs
  induction obs with
  | nil => intro req; exact ⟨rfl, rfl, rfl⟩
  | cons o rest ih =>
    intro req
    cases hc : o.ctxDone with
    | true =>
      refine ⟨?_, ?_, ?_⟩ <;>
        simp [slotLoop, hc, List.takeWhile_cons, stopFree]
    | false =>
      cases hd : o.durDone with
      | true =>
        refine ⟨?_, ?_, ?_⟩ <;>
          simp [slotLoop, hc, hd, List.takeWhile_cons, stopFree]
      | false =>
        have hbf : cfg.Body.isEmpty = false := by
          cases hbe : cfg.Body.isEmpty with
          | true => exact absurd hbe hb
          | false => rfl
        obtain ⟨ih1, ih2, ih3⟩ := ih req
        refine ⟨?_, ?_, ?_⟩
        · simp [slotLoop, hc, hd, List.takeWhile_cons, stopFree, hbf,
            transmit, buildRequest, List.replicate_succ, ih1]
        · simp only [slotLoop, hc, hd, List.takeWhile_cons, stopFree, hbf]
          simp [ih2, List.takeWhile_cons, stopFree, hc, hd]
          omega
        · simp [slotLoop, hc, hd, List.takeWhile_cons, stopFree, hbf,
            transmit, buildRequest, List.replicate_succ, ih3]

theorem slotLoop_nobody (cfg : Config) (hb : cfg.Body.isEmpty) (bf : Bool) :
    ∀ (obs : List IterObs) (req : GoRequest), req.readerBytes = none →
      (slotLoop cfg bf req obs).payloads
        = List.replicate (obs.takeWhile stopFree).length ([] : List Nat)
    ∧ (slotLoop cfg bf req obs).loopBuilds = 0 := by
  intro obs
  induction obs with
  | nil => intro req _; exact ⟨rfl, rfl⟩
  | cons o rest ih =>
    intro req hreq
    cases hc : o.ctxDone with
    | true =>
      constructor <;> simp [slotLoop, hc, List.takeWhile_cons, stopFree]
    | false =>
      cases hd : o.durDone with
      | true =>
        constructor <;> simp [slotLoop, hc, hd, List.takeWhile_cons, stopFree]
      | false =>
        obtain ⟨ih1, ih2⟩ := ih req hreq
        constructor
        · simp [slotLoop, hc, hd, List.takeWhile_cons, stopFree, hb,
            transmit, hreq, List.replicate_succ, ih1]
        · simp [slotLoop, hc, hd, stopFree, hb, transmit, hreq, ih2]

theorem uint64_mod_eq : UINT64_MOD = 18446744073709551616 := by
  norm_num [UINT64_MOD]

theorem percentileDuration_eq_spec (s : List Nat) (p : ℚ) :
    percentileDuration s p = specNearestRank s p := by
  by_cases h : s.length = 0
  · have hs : s = [] := List.length_eq_zero.mp h
    subst hs
    simp [percentileDuration, specNearestRank, List.getD]
  · have hn : 1 ≤ s.length := Nat.pos_of_ne_zero h
    simp only [percentileDuration, specNearestRank, h, if_false]
    split_ifs <;> (congr 1; omega)

theorem isSuccess_iff (e : Bool) (r : Option HTTPResponse) :
    isSuccess e r = true ↔
      e = false ∧ ∃ resp, r = some resp ∧
        200 ≤ resp.statusCode ∧ resp.statusCode < 500 := by
  cases e <;> cases r <;> simp [isSuccess]

theorem record_step (c : Collector) (lat : Nat) (s : Bool) (bs br : Nat) :
    (c.record lat s bs br).totalRequests = addU64 c.totalRequests 1
  ∧ (c.record lat s bs br).successes
      = (if s then addU64 c.successes 1 else c.successes)
  ∧ (c.record lat s bs br).errors
      = (if s then c.errors else addU64 c.errors 1)
  ∧ (c.record lat s bs br).totalBytesSent = addU64 c.totalBytesSent bs
  ∧ (c.record lat s bs br).totalBytesRecv = addU64 c.totalBytesRecv br := by
  cases s <;>
    (simp only [Collector.record]; split_ifs <;> exact ⟨rfl, rfl, rfl, rfl, rfl⟩)

/-- The counter invariant maintained by `Record`: successes plus errors
equals total requests (in `uint64` arithmetic), with every counter a valid
`uint64` value. -/
def goodCounters (c : Collector) : Prop :=
  (c.successes + c.errors) % UINT64_MOD = c.totalRequests
  ∧ c.successes < UINT64_MOD ∧ c.errors < UINT64_MOD
  ∧ c.totalRequests < UINT64_MOD

theorem record_preserves_good (c : Collector) (lat : Nat) (s : Bool)
    (bs br : Nat) (h : goodCounters c) :
    goodCounters (c.record lat s bs br) := by
  obtain ⟨h1, h2, h3, h4⟩ := h
  obtain ⟨e1, e2, e3, -, -⟩ := record_step c lat s bs br
  cases s <;> simp only [Bool.false_eq_true, if_false, if_true] at e2 e3 <;>
    (refine ⟨?_, ?_, ?_, ?_⟩ <;>
      simp only [e1, e2, e3, addU64, uint64_mod_eq] at * <;> omega)

theorem recordList_good (calls : List RecordCall) :
    ∀ c : Collector, goodCounters c → goodCounters (recordList c calls) := by
  induction calls with
  | nil => intro c h; exact h
  | cons r rest ih =>
    intro c h
    exact ih _ (record_preserves_good c r.latencyNs r.success r.bytesSent r.bytesRecvd h)

theorem newCollector_good : goodCounters newCollector := by
  constructor
  · simp [newCollector]
  · refine ⟨?_, ?_, ?_⟩ <;> simp [newCollector, uint64_mod_eq]

theorem record_latencySamples (c : Collector) (lat : Nat) (s : Bool)
    (bs br : Nat) :
    (c.record lat s bs br).latencySamples
      = if c.latencySamples.length < maxLatencySamples
        then c.latencySamples ++ [lat] else c.latencySamples := by
  cases s <;> (simp only [Collector.record]; split_ifs <;> rfl)

theorem orchestratorRun_ok (cfg : Config) (parse : ParseResult)
    (lookupOk : String → Bool) (hurl : cfg.URL ≠ "")
    (hdns : (preflightDNS parse lookupOk).err = none) :
    (orchestratorRun cfg parse lookupOk).err = none := by
  simp [orchestratorRun, hurl, hdns]

/-! ### Claim theorems -/

/-- Claim C5: for every configuration with an empty URL or for which the
DNS preflight fails, `Run` returns an error before any resource is
allocated — with an empty URL no DNS lookup is performed, and in both cases
no collector is created, neither shutdown signal is created, and no worker
is spawned. -/
theorem claim_C5_preflight_failure_allocates_nothing (cfg : Config)
    (parse : ParseResult) (lookupOk : String → Bool) (msg : String) :
    (cfg.URL = "" →
        (orchestratorRun cfg parse lookupOk).err = some "url is required"
      ∧ (orchestratorRun cfg parse lookupOk).dnsLookupAttempted = false
      ∧ (orchestratorRun cfg parse lookupOk).collectorCreated = false
      ∧ (orchestratorRun cfg parse lookupOk).cancelSignalCreated = false
      ∧ (orchestratorRun cfg parse lookupOk).durationSignalCreated = false
      ∧ (orchestratorRun cfg parse lookupOk).workersSpawned = false)
  ∧ ((preflightDNS parse lookupOk).err = some msg → cfg.URL ≠ "" →
        (orchestratorRun cfg parse lookupOk).err = some msg
      ∧ (orchestratorRun cfg parse lookupOk).collectorCreated = false
      ∧ (orchestratorRun cfg parse lookupOk).cancelSignalCreated = false
      ∧ (orchestratorRun cfg parse lookupOk).durationSignalCreated = false
      ∧ (orchestratorRun cfg parse lookupOk).workersSpawned = false) := by
  constructor
  · intro h
    refine ⟨?_, ?_, ?_, ?_, ?_, ?_⟩ <;> simp [orchestratorRun, h]
  · intro hm hurl
    refine ⟨?_, ?_, ?_, ?_, ?_⟩ <;> simp [orchestratorRun, hurl, hm]

/-- Witness for C5 at a concrete empty-URL configuration and a concrete
failing preflight. -/
theorem claim_C5_witness :
    (orchestratorRun { cfgNoBody with URL := "" } ParseResult.fail
        (fun _ => true)).err = some "url is required"
  ∧ (orchestratorRun cfgNoBody ParseResult.fail (fun _ => true)).err
      = some "invalid url"
  ∧ (orchestratorRun cfgNoBody ParseResult.fail
        (fun _ => true)).collectorCreated = false := by
  have h1 := claim_C5_preflight_failure_allocates_nothing
    { cfgNoBody with URL := "" } ParseResult.fail (fun _ => true) "invalid url"
  have h2 := claim_C5_preflight_failure_allocates_nothing
    cfgNoBody ParseResult.fail (fun _ => true) "invalid url"
  refine ⟨(h1.1 rfl).1, ?_, ?_⟩
  · exact (h2.2 rfl (by simp [cfgNoBody])).1
  · exact (h2.2 rfl (by simp [cfgNoBody])).2.1

/-- Claim C6: the latency sample buffer never exceeds its fixed maximum
capacity, and a `Record` call on a full buffer leaves the buffer unchanged
(the sample is silently dropped) while still incrementing the total,
byte, and success-or-error counters. -/
theorem claim_C6_bounded_latency_buffer (c : Collector) (lat : Nat)
    (s : Bool) (bs br : Nat)
    (h : c.latencySamples.length ≤ maxLatencySamples) :
    ((c.record lat s bs br).latencySamples.length ≤ maxLatencySamples)
  ∧ (c.latencySamples.length = maxLatencySamples →
       (c.record lat s bs br).latencySamples = c.latencySamples
     ∧ (c.record lat s bs br).totalRequests = addU64 c.totalRequests 1
     ∧ (c.record lat s bs br).totalBytesSent = addU64 c.totalBytesSent bs
     ∧ (c.record lat s bs br).totalBytesRecv = addU64 c.totalBytesRecv br
     ∧ (c.record lat s bs br).successes
         = (if s then addU64 c.successes 1 else c.successes)
     ∧ (c.record lat s bs br).errors
         = (if s then c.errors else addU64 c.errors 1)) := by
  obtain ⟨e1, e2, e3, e4, e5⟩ := record_step c lat s bs br
  constructor
  · rw [record_latencySamples]
    split_ifs with hlt
    · simp only [List.length_append, List.length_cons, List.length_nil]
      omega
    · exact h
  · intro heq
    have hnlt : ¬c.latencySamples.length < maxLatencySamples := by omega
    exact ⟨by rw [record_latencySamples, if_neg hnlt], e1, e4, e5, e2, e3⟩

/-- Witness for C6 at a collector whose buffer is exactly full. -/
theorem claim_C6_witness :
    ((fullCollector.record 5 true 1 2).latencySamples.length
        ≤ maxLatencySamples)
  ∧ (fullCollector.latencySamples.length = maxLatencySamples →
       (fullCollector.record 5 true 1 2).latencySamples
           = fullCollector.latencySamples
     ∧ (fullCollector.record 5 true 1 2).totalRequests
         = addU64 fullCollector.totalRequests 1
     ∧ (fullCollector.record 5 true 1 2).totalBytesSent
         = addU64 fullCollector.totalBytesSent 1
     ∧ (fullCollector.record 5 true 1 2).totalBytesRecv
         = addU64 fullCollector.totalBytesRecv 2
     ∧ (fullCollector.record 5 true 1 2).successes
         = (if true then addU64 fullCollector.successes 1
            else fullCollector.successes)
     ∧ (fullCollector.record 5 true 1 2).errors
         = (if true then fullCollector.errors
            else addU64 fullCollector.errors 1)) :=
  claim_C6_bounded_latency_buffer fullCollector 5 true 1 2
    (by simp [fullCollector])

/-- Claim C7: `Record` and `Snapshot` are total functions (they are plain
Lean functions here, returning no error by construction), and a snapshot of
a collector with zero `Record` calls reports every total and every latency
and throughput statistic as zero — in this exact rational model no value is
NaN, and the divisions involved have positive denominators by the
`elapsedSec` clamp and the empty-sample guards. -/
theorem claim_C7_snapshot_total_never_error (e n : Nat) (q : ℚ → ℚ) :
    (newCollector.snapshot e n q).TotalRequests = 0
  ∧ (newCollector.snapshot e n q).Successes = 0
  ∧ (newCollector.snapshot e n q).Errors = 0
  ∧ (newCollector.snapshot e n q).TotalBytesSent = 0
  ∧ (newCollector.snapshot e n q).TotalBytesRecv = 0
  ∧ (newCollector.snapshot e n q).RequestsPerSAvg = 0
  ∧ (newCollector.snapshot e n q).BytesPerSAvg = 0
  ∧ (newCollector.snapshot e n q).LatencyP25 = 0
  ∧ (newCollector.snapshot e n q).LatencyP50 = 0
  ∧ (newCollector.snapshot e n q).LatencyP975 = 0
  ∧ (newCollector.snapshot e n q).LatencyP99 = 0
  ∧ (newCollector.snapshot e n q).LatencyAvg = 0
  ∧ (newCollector.snapshot e n q).LatencyStdev = 0
  ∧ (newCollector.snapshot e n q).LatencyMax = 0
  ∧ (newCollector.snapshot e n q).RPSP01 = 0
  ∧ (newCollector.snapshot e n q).RPSP025 = 0
  ∧ (newCollector.snapshot e n q).RPSP50 = 0
  ∧ (newCollector.snapshot e n q).RPSP975 = 0
  ∧ (newCollector.snapshot e n q).RPSStdev = 0
  ∧ (newCollector.snapshot e n q).RPSMin = 0
  ∧ (newCollector.snapshot e n q).BytesPerSP01 = 0
  ∧ (newCollector.snapshot e n q).BytesPerSP025 = 0
  ∧ (newCollector.snapshot e n q).BytesPerSP50 = 0
  ∧ (newCollector.snapshot e n q).BytesPerSP975 = 0
  ∧ (newCollector.snapshot e n q).BytesPerSStdev = 0
  ∧ (newCollector.snapshot e n q).BytesPerSMin = 0
  ∧ 0 < elapsedSecondsQ e := by
  have hflush : flushBuckets newCollector n = newCollector := by
    simp [flushBuckets, newCollector]
  have hpos : 0 < elapsedSecondsQ e := by
    simp only [elapsedSecondsQ]
    split_ifs with h
    · norm_num
    · have : (0 : ℚ) ≤ (e : ℚ) / 1000000000 := by positivity
      by_contra hc
      push_neg at hc
      have : (e : ℚ) / 1000000000 < 1 / 1000 := lt_of_le_of_lt hc (by norm_num)
      exact h this
  refine ⟨?_, ?_, ?_, ?_, ?_, ?_, ?_, ?_, ?_, ?_, ?_, ?_, ?_, ?_, ?_, ?_,
    ?_, ?_, ?_, ?_, ?_, ?_, ?_, ?_, ?_, ?_, hpos⟩ <;>
    (simp only [Collector.snapshot, hflush]; simp [newCollector, addU64])

/-- Claim C9: after every sequence of `Record` calls the collector
satisfies successes + errors = totalRequests (in `uint64` arithmetic), and
each individual `Record` adds exactly one to the total-request counter and
exactly one to exactly one of the success/error counters. -/
theorem claim_C9_success_error_total_invariant (calls : List RecordCall)
    (c0 : Collector) (lat : Nat) (s : Bool) (bs br : Nat) :
    ((recordList newCollector calls).successes
        + (recordList newCollector calls).errors) % UINT64_MOD
      = (recordList newCollector calls).totalRequests
  ∧ (c0.record lat s bs br).totalRequests = addU64 c0.totalRequests 1
  ∧ (c0.record lat s bs br).successes
      = (if s then addU64 c0.successes 1 else c0.successes)
  ∧ (c0.record lat s bs br).errors
      = (if s then c0.errors else addU64 c0.errors 1) := by
  obtain ⟨e1, e2, e3, -, -⟩ := record_step c0 lat s bs br
  exact ⟨(recordList_good calls newCollector newCollector_good).1, e1, e2, e3⟩

/-- Claim C10: if request construction fails inside a pipeline slot, the
slot returns immediately and silently — no `Record` call is made, nothing
reaches the wire, no request is built in the loop, the collector is left in
its initial state — and `Run` still returns nil. -/
theorem claim_C10_build_failure_silent_no_error (cfg : Config)
    (obs : List IterObs) (parse : ParseResult) (lookupOk : String → Bool)
    (hurl : cfg.URL ≠ "")
    (hdns : (preflightDNS parse lookupOk).err = none) :
    (runPipelineSlot cfg true obs).records = []
  ∧ (runPipelineSlot cfg true obs).payloads = []
  ∧ (runPipelineSlot cfg true obs).loopBuilds = 0
  ∧ recordList newCollector (runPipelineSlot cfg true obs).records
      = newCollector
  ∧ (orchestratorRun cfg parse lookupOk).err = none :=
  ⟨rfl, rfl, rfl, rfl, orchestratorRun_ok cfg parse lookupOk hurl hdns⟩

/-- Witness for C10: a concrete invalid-method configuration whose build
fails, with a passing preflight. -/
theorem claim_C10_witness :
    (runPipelineSlot cfgNoBody true [obs404]).records = []
  ∧ (runPipelineSlot cfgNoBody true [obs404]).payloads = []
  ∧ (runPipelineSlot cfgNoBody true [obs404]).loopBuilds = 0
  ∧ recordList newCollector (runPipelineSlot cfgNoBody true [obs404]).records
      = newCollector
  ∧ (orchestratorRun cfgNoBody (ParseResult.ok "localhost")
        (fun _ => true)).err = none :=
  claim_C10_build_failure_silent_no_error cfgNoBody [obs404]
    (ParseResult.ok "localhost") (fun _ => true)
    (by simp [cfgNoBody]) (by simp [preflightDNS])

/-- Claim C1: duration expiry never aborts a request already executing.
First conjunct: over any observation trace, the slot records exactly one
outcome for every iteration that entered the issue branch — the stop
signals are evaluated strictly before issuing, and an issued request is
always carried through to its `Record`, whatever the duration signal does
afterwards.  Second conjunct: on a trace where the duration signal is
observed fired at iteration `pre.length` (cancellation not triggered
during `pre`), exactly the `pre`-issued requests are recorded — all of
them complete, none is force-aborted, and no further request starts.
Third conjunct: `Run` returns no error on such a run. -/
theorem claim_C1_duration_expiry_never_aborts_in_flight (cfg : Config)
    (obs pre rest : List IterObs) (o : IterObs) (parse : ParseResult)
    (lookupOk : String → Bool) (hurl : cfg.URL ≠ "")
    (hdns : (preflightDNS parse lookupOk).err = none)
    (hpre : ∀ x ∈ pre, stopFree x = true) (hdur : o.durDone = true) :
    (runPipelineSlot cfg false obs).records
      = (obs.takeWhile stopFree).map (obsRecord cfg)
  ∧ (runPipelineSlot cfg false (pre ++ o :: rest)).records
      = pre.map (obsRecord cfg)
  ∧ (orchestratorRun cfg parse lookupOk).err = none := by
  have h1 : ∀ obs2 : List IterObs,
      (runPipelineSlot cfg false obs2).records
        = (obs2.takeWhile stopFree).map (obsRecord cfg) :=
    fun obs2 => slotLoop_records cfg obs2 (buildRequest cfg)
  refine ⟨h1 obs, ?_, orchestratorRun_ok cfg parse lookupOk hurl hdns⟩
  rw [h1, takeWhile_all_append stopFree pre hpre o (by simp [stopFree, hdur]) rest]

/-- Witness for C1: two issued requests, then the duration timer fires with
a third observation pending; both issued requests are recorded, the third
never starts, and `Run` reports no error. -/
theorem claim_C1_witness :
    (runPipelineSlot cfgNoBody false [obs404, obs404, obsExpired, obs404]).records
      = [obsRecord cfgNoBody obs404, obsRecord cfgNoBody obs404]
  ∧ (orchestratorRun cfgNoBody (ParseResult.ok "localhost")
        (fun _ => true)).err = none := by
  have h := claim_C1_duration_expiry_never_aborts_in_flight cfgNoBody
    [obs404, obs404, obsExpired, obs404] [obs404, obs404] [obs404] obsExpired
    (ParseResult.ok "localhost") (fun _ => true)
    (by simp [cfgNoBody]) (by simp [preflightDNS])
    (by intro x hx; simp at hx; simp [hx, stopFree, obs404]) rfl
  exact ⟨h.2.1, h.2.2⟩

/-- Claim C3: the recorded outcome is a success exactly when there was no
transport error, a response was received, and its status code lies in
[200, 500); every completed attempt is recorded with this classification,
and `Run` itself returns no error regardless of the outcomes. -/
theorem claim_C3_outcome_classification (e : Bool) (r : Option HTTPResponse)
    (cfg : Config) (obs : List IterObs) (parse : ParseResult)
    (lookupOk : String → Bool) (hurl : cfg.URL ≠ "")
    (hdns : (preflightDNS parse lookupOk).err = none) :
    (isSuccess e r = true ↔
       e = false ∧ ∃ resp, r = some resp ∧
         200 ≤ resp.statusCode ∧ resp.statusCode < 500)
  ∧ ((runPipelineSlot cfg false obs).records.map RecordCall.success
      = (obs.takeWhile stopFree).map
          (fun o => isSuccess o.transportErr o.resp))
  ∧ (orchestratorRun cfg parse lookupOk).err = none := by
  refine ⟨isSuccess_iff e r, ?_, orchestratorRun_ok cfg parse lookupOk hurl hdns⟩
  have h1 : (runPipelineSlot cfg false obs).records
      = (obs.takeWhile stopFree).map (obsRecord cfg) :=
    slotLoop_records cfg obs (buildRequest cfg)
  rw [h1, List.map_map]
  rfl

/-- Witness for C3: a 404 response with no transport error classifies as a
success, a 500 response classifies as an error, and `Run` returns no
error. -/
theorem claim_C3_witness :
    isSuccess false (some { statusCode := 404, bodyBytes := 5 }) = true
  ∧ ((runPipelineSlot cfgNoBody false [obs404]).records.map RecordCall.success
      = ([obs404].takeWhile stopFree).map
          (fun o => isSuccess o.transportErr o.resp))
  ∧ (orchestratorRun cfgNoBody (ParseResult.ok "localhost")
        (fun _ => true)).err = none := by
  have h := claim_C3_outcome_classification false
    (some { statusCode := 404, bodyBytes := 5 }) cfgNoBody [obs404]
    (ParseResult.ok "localhost") (fun _ => true)
    (by simp [cfgNoBody]) (by simp [preflightDNS])
  exact ⟨h.1.mpr ⟨rfl, { statusCode := 404, bodyBytes := 5 }, rfl,
    by norm_num, by norm_num⟩, h.2.1, h.2.2⟩

/-- Claim C2: any interleaving of the primitive atomic operations of N
`Record(1ms, true, 1, 1)` calls (any list with the same multiset of
primitive ops — a superset of the true interleavings) drives the collector
to a state whose snapshot reports TotalRequests = N, Successes = N,
TotalBytesSent = N, TotalBytesRecv = N and Errors = 0 exactly: the
independent wrap-around counters commute, so no update is ever lost. -/
theorem claim_C2_concurrent_record_no_lost_updates (N : Nat)
    (l : List AtomicOp) (e n : Nat) (q : ℚ → ℚ)
    (hperm : l.Perm ((List.replicate N (recordOps 1000000 true 1 1)).flatten))
    (hN : N < UINT64_MOD) :
    ((execOps l newCollector).snapshot e n q).TotalRequests = N
  ∧ ((execOps l newCollector).snapshot e n q).Successes = N
  ∧ ((execOps l newCollector).snapshot e n q).TotalBytesSent = N
  ∧ ((execOps l newCollector).snapshot e n q).TotalBytesRecv = N
  ∧ ((execOps l newCollector).snapshot e n q).Errors = 0 := by
  have hsum : ∀ f : AtomicOp → Nat,
      (l.map f).sum = N * ((recordOps 1000000 true 1 1).map f).sum := by
    intro f
    calc (l.map f).sum
        = (((List.replicate N (recordOps 1000000 true 1 1)).flatten).map f).sum :=
          (hperm.map f).sum_eq
      _ = N * ((recordOps 1000000 true 1 1).map f).sum :=
          sum_map_flatten_replicate N _ f
  refine ⟨?_, ?_, ?_, ?_, ?_⟩
  · rw [snapshot_TotalRequests,
      execOps_counter Collector.totalRequests opTotalDelta
        applyOp_totalRequests l newCollector uint64_mod_pos,
      hsum opTotalDelta]
    simp [newCollector, recordOps, opTotalDelta, Nat.mod_eq_of_lt hN]
  · rw [snapshot_Successes,
      execOps_counter Collector.successes opSuccDelta
        applyOp_successes l newCollector uint64_mod_pos,
      hsum opSuccDelta]
    simp [newCollector, recordOps, opSuccDelta, Nat.mod_eq_of_lt hN]
  · rw [snapshot_TotalBytesSent,
      execOps_counter Collector.totalBytesSent opSentDelta
        applyOp_totalBytesSent l newCollector uint64_mod_pos,
      hsum opSentDelta]
    simp [newCollector, recordOps, opSentDelta, Nat.mod_eq_of_lt hN]
  · rw [snapshot_TotalBytesRecv,
      execOps_counter Collector.totalBytesRecv opRecvdDelta
        applyOp_totalBytesRecv l newCollector uint64_mod_pos,
      hsum opRecvdDelta]
    simp [newCollector, recordOps, opRecvdDelta, Nat.mod_eq_of_lt hN]
  · rw [snapshot_Errors,
      execOps_counter Collector.errors opErrDelta
        applyOp_errors l newCollector uint64_mod_pos,
      hsum opErrDelta]
    simp [newCollector, recordOps, opErrDelta]

/-- Witness for C2 at N = 3 and a concrete op interleaving. -/
theorem claim_C2_witness :
    ((execOps witnessOps newCollector).snapshot 0 0 (fun _ => 0)).TotalRequests = 3
  ∧ ((execOps witnessOps newCollector).snapshot 0 0 (fun _ => 0)).Successes = 3
  ∧ ((execOps witnessOps newCollector).snapshot 0 0 (fun _ => 0)).TotalBytesSent = 3
  ∧ ((execOps witnessOps newCollector).snapshot 0 0 (fun _ => 0)).TotalBytesRecv = 3
  ∧ ((execOps witnessOps newCollector).snapshot 0 0 (fun _ => 0)).Errors = 0 :=
  claim_C2_concurrent_record_no_lost_updates 3 witnessOps 0 0 (fun _ => 0)
    (List.Perm.refl _) (by norm_num [uint64_mod_eq])

/-- Claim C4: the percentile statistic is the nearest-rank selection the
spec describes — the element of the ascending-sorted samples at index
round(p/100 * (n-1)) clamped to [0, n-1], with no interpolation — and for
the samples {10, 20, 30, 40, 50} ms recorded in any order the snapshot
reports P50 = 30 ms and Max = 50 ms exactly. -/
theorem claim_C4_nearest_rank_percentile (s : List Nat) (p : ℚ)
    (c : Collector) (e n : Nat) (q : ℚ → ℚ) (hs : s ≠ [])
    (hperm : c.latencySamples.Perm
      [10000000, 20000000, 30000000, 40000000, 50000000]) :
    percentileDuration s p = specNearestRank s p
  ∧ (c.snapshot e n q).LatencyP50 = 30000000
  ∧ (c.snapshot e n q).LatencyMax = 50000000 := by
  have hlen : c.latencySamples.length ≠ 0 := by
    simp [hperm.length_eq]
  have hsort : c.latencySamples.insertionSort (· ≤ ·)
      = [10000000, 20000000, 30000000, 40000000, 50000000] :=
    List.eq_of_perm_of_sorted
      ((List.perm_insertionSort _ _).trans hperm)
      (List.sorted_insertionSort _ _) (by decide)
  refine ⟨percentileDuration_eq_spec s p, ?_, ?_⟩
  · rw [snapshot_LatencyP50 c e n q hlen, hsort]
    have h2 : goRound (50 / 100 * ((5 : ℚ) - 1)) = 2 := by
      norm_num [goRound]
    simp [percentileDuration, h2]
  · rw [snapshot_LatencyMax c e n q hlen, hsort]
    rfl

/-- Witness for C4 at a singleton sample list and the concrete
five-sample collector. -/
theorem claim_C4_witness :
    percentileDuration [7] 50 = specNearestRank [7] 50
  ∧ (fiveSampleCollector.snapshot 0 0 (fun _ => 0)).LatencyP50 = 30000000
  ∧ (fiveSampleCollector.snapshot 0 0 (fun _ => 0)).LatencyMax = 50000000 :=
  claim_C4_nearest_rank_percentile [7] 50 fiveSampleCollector 0 0 (fun _ => 0)
    (by simp) (by simp [fiveSampleCollector]; decide)

/-- Claim C8: with a non-empty body of N bytes every loop iteration builds
a fresh request — a new single-use reader over the same immutable body
bytes, content length set to N — so the endpoint observes exactly the
N-byte payload on every iteration; with an empty body no request is built
inside the loop (the one pre-built request is reused) and every payload is
empty. -/
theorem claim_C8_fresh_request_per_iteration_with_body (cfg : Config)
    (obs : List IterObs) :
    (cfg.Body ≠ [] →
       (runPipelineSlot cfg false obs).payloads
         = List.replicate (runPipelineSlot cfg false obs).records.length cfg.Body
     ∧ (∀ r ∈ (runPipelineSlot cfg false obs).issued,
          r.readerBytes = some cfg.Body
        ∧ r.contentLength = (cfg.Body.length : Int))
     ∧ (runPipelineSlot cfg false obs).loopBuilds
         = (runPipelineSlot cfg false obs).records.length)
  ∧ (cfg.Body = [] →
       (runPipelineSlot cfg false obs).loopBuilds = 0
     ∧ (runPipelineSlot cfg false obs).payloads
         = List.replicate (runPipelineSlot cfg false obs).records.length
             ([] : List Nat)) := by
  have hrps : runPipelineSlot cfg false obs
      = slotLoop cfg false (buildRequest cfg) obs := rfl
  have hrec : (slotLoop cfg false (buildRequest cfg) obs).records.length
      = (obs.takeWhile stopFree).length := by
    rw [slotLoop_records cfg obs (buildRequest cfg), List.length_map]
  constructor
  · intro hb
    have hb2 : ¬cfg.Body.isEmpty = true := by simp [List.isEmpty_iff, hb]
    obtain ⟨p1, p2, p3⟩ := slotLoop_body_payloads cfg hb2 obs (buildRequest cfg)
    have hbe : cfg.Body.isEmpty = false := by simp [List.isEmpty_iff, hb]
    refine ⟨?_, ?_, ?_⟩
    · rw [hrps, p1, hrec]
    · intro r hr
      rw [hrps, p3] at hr
      have heq : r = buildRequest cfg := List.eq_of_mem_replicate hr
      subst heq
      constructor <;> simp [buildRequest, hbe]
    · rw [hrps, p2, hrec]
  · intro hb
    have hb2 : cfg.Body.isEmpty = true := by simp [hb]
    obtain ⟨p1, p2⟩ := slotLoop_nobody cfg hb2 false obs (buildRequest cfg)
      (by simp [buildRequest, hb2])
    constructor
    · rw [hrps]; exact p2
    · rw [hrps, p1, hrec]

/-- Witness for C8: a 3-byte body over two issued iterations, and the
empty-body configuration over the same trace. -/
theorem claim_C8_witness :
    ((runPipelineSlot cfgBody false [obs404, obs404]).payloads
       = List.replicate (runPipelineSlot cfgBody false [obs404, obs404]).records.length
           cfgBody.Body
     ∧ (∀ r ∈ (runPipelineSlot cfgBody false [obs404, obs404]).issued,
          r.readerBytes = some cfgBody.Body
        ∧ r.contentLength = (cfgBody.Body.length : Int))
     ∧ (runPipelineSlot cfgBody false [obs404, obs404]).loopBuilds
         = (runPipelineSlot cfgBody false [obs404, obs404]).records.length)
  ∧ ((runPipelineSlot cfgNoBody false [obs404, obs404]).loopBuilds = 0) := by
  have h1 := claim_C8_fresh_request_per_iteration_with_body cfgBody
    [obs404, obs404]
  have h2 := claim_C8_fresh_request_per_iteration_with_body cfgNoBody
    [obs404, obs404]
  exact ⟨h1.1 (by simp [cfgBody]), (h2.2 (by simp [cfgNoBody])).1⟩

end HTTPClientProof
